import Mathlib

/-!
Shallow embedding of the vibeflagger repository's core: the scoring engine
(`calculateVibeScore`, `getHealthStatus` in `src/database/db.ts`), the
persistence layer over the two SQLite tables (`profiles`, `logs`) and its
startup migration, and the aggregation query `getTopProfilesByLogCount`.

JavaScript numbers are modelled as rationals (the spec fixes real-number,
non-truncating division for the YELLOW contribution), SQLite INTEGER columns
as `ℤ`/`ℕ`, TEXT as `String`, nullable columns as `Option`.
-/

namespace VibeFlagger

/-- JavaScript `Math.round`: round half toward positive infinity. -/
def jsRound (q : ℚ) : ℤ := ⌊q + 1/2⌋

/-- A row of the `logs` table.  `type` is the stored TEXT value (the schema
CHECK restricts it to GREEN/YELLOW/RED); `profile_id` is the nullable
foreign key into `profiles`. -/
structure LogEntry where
  id : ℕ
  timestamp : String
  person : String
  profile_id : Option ℕ
  type : String
  severity : ℤ
  category : String
  notes : Option String
deriving DecidableEq, Repr

/-- Per-entry contribution to `toxicitySum` in `calculateVibeScore`
(db.ts): the `switch` on `log.type` adds `severity` for RED,
`severity / 2` for YELLOW, `-severity` for GREEN, and nothing otherwise
(the switch has no default). -/
def logContribution (log : LogEntry) : ℚ :=
  if log.type = "RED" then (log.severity : ℚ)
  else if log.type = "YELLOW" then (log.severity : ℚ) / 2
  else if log.type = "GREEN" then -(log.severity : ℚ)
  else 0

/-- The running `toxicitySum` accumulated by the `for` loop of
`calculateVibeScore`. -/
def toxicitySum (logs : List LogEntry) : ℚ :=
  logs.foldl (fun acc log => acc + logContribution log) 0

/-- `calculateVibeScore` from `src/database/db.ts`:
empty input returns 0; otherwise the signed sum is normalised by
`logs.length * 10`, scaled to a percentage, rounded with `Math.round`,
and clamped by `Math.max(0, Math.min(100, ·))`. -/
def calculateVibeScore (logs : List LogEntry) : ℤ :=
  if logs.length = 0 then 0
  else
    let maxPossibleToxicity : ℚ := (logs.length : ℚ) * 10
    let toxicityPercentage : ℚ := toxicitySum logs / maxPossibleToxicity * 100
    max 0 (min 100 (jsRound toxicityPercentage))

/-- The raw (pre-round, pre-clamp) toxicity percentage of a log list. -/
def rawToxicityPercentage (logs : List LogEntry) : ℚ :=
  toxicitySum logs / ((logs.length : ℚ) * 10) * 100

/-- `getHealthStatus` from `src/database/db.ts`. -/
def getHealthStatus (score : ℤ) : String :=
  if score > 75 then "Critical"
  else if score ≥ 50 then "Toxic"
  else if score ≥ 25 then "Concerning"
  else if score > 0 then "Stable"
  else "Thriving"

/-- The private `calculateVibeScore` duplicated inside
`src/screens/ProfileDetailScreen.tsx` (transcribed from that copy). -/
def calculateVibeScoreScreen (logsList : List LogEntry) : ℤ :=
  if logsList.length = 0 then 0
  else
    let maxPossibleToxicity : ℚ := (logsList.length : ℚ) * 10
    let toxicityPercentage : ℚ := toxicitySum logsList / maxPossibleToxicity * 100
    max 0 (min 100 (jsRound toxicityPercentage))

/-- The private `getHealthStatus` duplicated inside
`src/screens/ProfileDetailScreen.tsx` (transcribed from that copy). -/
def getHealthStatusScreen (score : ℤ) : String :=
  if score > 75 then "Critical"
  else if score ≥ 50 then "Toxic"
  else if score ≥ 25 then "Concerning"
  else if score > 0 then "Stable"
  else "Thriving"

/-- The toxicity score exactly as the specification words it: a signed sum
(+severity for RED, +severity/2 for YELLOW with real division, -severity for
GREEN), divided by (count × 10), scaled by 100, clamped into [0,100] as a
rational, then rounded half-up. -/
def specToxicityScore (logs : List LogEntry) : ℤ :=
  if logs = [] then 0
  else
    jsRound (max 0 (min 100 ((logs.map logContribution).sum / ((logs.length : ℚ) * 10) * 100)))

/- Helper lemmas for the scoring engine. -/

theorem toxicitySum_eq_sum_map (logs : List LogEntry) :
    toxicitySum logs = (logs.map logContribution).sum := by
  have h : ∀ (l : List LogEntry) (a : ℚ),
      l.foldl (fun acc log => acc + logContribution log) a = a + (l.map logContribution).sum := by
    intro l
    induction l with
    | nil => intro a; simp
    | cons x xs ih => intro a; simp [List.foldl_cons, ih, add_assoc]
  simpa using h logs 0

theorem jsRound_nonneg {q : ℚ} (h : 0 ≤ q) : 0 ≤ jsRound q := by
  unfold jsRound
  have : (0 : ℤ) = ⌊(1 : ℚ)/2⌋ := by norm_num
  rw [this]
  exact Int.floor_le_floor (by linarith)

theorem jsRound_le_hundred {q : ℚ} (h : q ≤ 100) : jsRound q ≤ 100 := by
  unfold jsRound
  have h2 : ⌊q + 1/2⌋ ≤ ⌊(100 : ℚ) + 1/2⌋ := Int.floor_le_floor (by linarith)
  have h3 : ⌊(100 : ℚ) + 1/2⌋ = 100 := by norm_num
  omega

theorem jsRound_nonpos {q : ℚ} (h : q ≤ 0) : jsRound q ≤ 0 := by
  unfold jsRound
  have h2 : ⌊q + 1/2⌋ ≤ ⌊(0 : ℚ) + 1/2⌋ := Int.floor_le_floor (by linarith)
  have h3 : ⌊(0 : ℚ) + 1/2⌋ = 0 := by norm_num
  omega

theorem jsRound_ge_hundred {q : ℚ} (h : 100 ≤ q) : 100 ≤ jsRound q := by
  unfold jsRound
  have h2 : ⌊(100 : ℚ) + 1/2⌋ ≤ ⌊q + 1/2⌋ := Int.floor_le_floor (by linarith)
  have h3 : ⌊(100 : ℚ) + 1/2⌋ = 100 := by norm_num
  omega

/-- Rounding after clamping into [0,100] agrees with clamping after
rounding: the two orders commute. -/
theorem jsRound_clamp_comm (q : ℚ) :
    jsRound (max 0 (min 100 q)) = max 0 (min 100 (jsRound q)) := by
  rcases le_total q 0 with h0 | h0
  · have hmin : min (100 : ℚ) q = q := min_eq_right (by linarith)
    have hmax : max (0 : ℚ) q = 0 := max_eq_left h0
    rw [hmin, hmax]
    have h1 : jsRound q ≤ 0 := jsRound_nonpos h0
    have h2 : jsRound 0 = 0 := by unfold jsRound; norm_num
    have hminz : min (100 : ℤ) (jsRound q) = jsRound q := min_eq_right (by omega)
    rw [h2, hminz]
    omega
  · rcases le_total q 100 with h1 | h1
    · have hmin : min (100 : ℚ) q = q := min_eq_right h1
      have hmax : max (0 : ℚ) q = q := max_eq_right h0
      rw [hmin, hmax]
      have hlo : 0 ≤ jsRound q := jsRound_nonneg h0
      have hhi : jsRound q ≤ 100 := jsRound_le_hundred h1
      have hminz : min (100 : ℤ) (jsRound q) = jsRound q := min_eq_right hhi
      rw [hminz]
      omega
    · have hmin : min (100 : ℚ) q = 100 := min_eq_left h1
      have hmax : max (0 : ℚ) (100 : ℚ) = 100 := max_eq_right (by norm_num)
      rw [hmin, hmax]
      have h2 : jsRound 100 = 100 := by unfold jsRound; norm_num
      have hhi : 100 ≤ jsRound q := jsRound_ge_hundred h1
      have hminz : min (100 : ℤ) (jsRound q) = 100 := min_eq_left (by omega)
      rw [h2, hminz]
      omega

/-- C1: `calculateVibeScore` computes exactly the specification's toxicity
score: 0 on the empty sequence, and otherwise the signed sum
(+severity for RED, +severity/2 for YELLOW using real division,
-severity for GREEN) divided by (count × 10), times 100, clamped into
[0,100] and rounded half-up. -/
theorem claim_C1_vibeScore_matches_spec (logs : List LogEntry) :
    calculateVibeScore logs = specToxicityScore logs := by
  unfold calculateVibeScore specToxicityScore
  rcases logs with _ | ⟨x, xs⟩
  · simp
  · have hne : (x :: xs : List LogEntry) ≠ [] := by simp
    have hlen : (x :: xs : List LogEntry).length ≠ 0 := by simp
    simp only [hne, hlen, if_neg, if_false]
    rw [jsRound_clamp_comm, toxicitySum_eq_sum_map]

/-- C2: for every integer score in [0,100], `getHealthStatus` returns
Critical iff score > 75, Toxic iff 50 ≤ score ≤ 75, Concerning iff
25 ≤ score < 50, Stable iff 0 < score < 25, and Thriving iff score = 0;
in particular 75 ↦ Toxic, 76 ↦ Critical, 0 ↦ Thriving, 1 ↦ Stable. -/
theorem claim_C2_healthStatus_boundaries (score : ℤ)
    (h0 : 0 ≤ score) (h100 : score ≤ 100) :
    (getHealthStatus score = "Critical" ↔ 75 < score) ∧
    (getHealthStatus score = "Toxic" ↔ 50 ≤ score ∧ score ≤ 75) ∧
    (getHealthStatus score = "Concerning" ↔ 25 ≤ score ∧ score < 50) ∧
    (getHealthStatus score = "Stable" ↔ 0 < score ∧ score < 25) ∧
    (getHealthStatus score = "Thriving" ↔ score = 0) ∧
    getHealthStatus 75 = "Toxic" ∧ getHealthStatus 76 = "Critical" ∧
    getHealthStatus 0 = "Thriving" ∧ getHealthStatus 1 = "Stable" := by
  refine ⟨?_, ?_, ?_, ?_, ?_, by decide, by decide, by decide, by decide⟩ <;>
    · unfold getHealthStatus
      split_ifs <;>
        first
          | exact iff_of_true rfl (by omega)
          | exact iff_of_false (by decide) (by omega)

theorem claim_C2_healthStatus_boundaries_witness :
    getHealthStatus 75 = "Toxic" :=
  ((claim_C2_healthStatus_boundaries 75 (by decide) (by decide)).2.1).mpr (by decide)

/-- C9: `calculateVibeScore` always lands in [0,100]; on a nonempty input a
negative raw percentage clamps to 0 and a raw percentage above 100 clamps
to 100. -/
theorem calculateVibeScore_eq_clamp (logs : List LogEntry) (h : logs.length ≠ 0) :
    calculateVibeScore logs = max 0 (min 100 (jsRound (rawToxicityPercentage logs))) := by
  unfold calculateVibeScore rawToxicityPercentage
  rw [if_neg h]

theorem claim_C9_score_clamped (logs : List LogEntry) :
    0 ≤ calculateVibeScore logs ∧ calculateVibeScore logs ≤ 100 ∧
    (logs ≠ [] → rawToxicityPercentage logs < 0 → calculateVibeScore logs = 0) ∧
    (logs ≠ [] → 100 < rawToxicityPercentage logs → calculateVibeScore logs = 100) := by
  rcases logs with _ | ⟨x, xs⟩
  · refine ⟨by decide, by decide, ?_, ?_⟩ <;> · intro h; exact absurd rfl h
  · have hlen : (x :: xs : List LogEntry).length ≠ 0 := by simp
    rw [calculateVibeScore_eq_clamp _ hlen]
    set n := jsRound (rawToxicityPercentage (x :: xs)) with hn
    have hminle : min (100 : ℤ) n ≤ 100 := min_le_left _ _
    refine ⟨le_max_left _ _, by omega, ?_, ?_⟩
    · intro _ hneg
      have h1 : n ≤ 0 := jsRound_nonpos (le_of_lt hneg)
      have h2 : min (100 : ℤ) n ≤ 0 := le_trans (min_le_right _ _) h1
      omega
    · intro _ hbig
      have h1 : 100 ≤ n := jsRound_ge_hundred (le_of_lt hbig)
      have h2 : min (100 : ℤ) n = 100 := min_eq_left h1
      omega

/-- A single GREEN log of severity 5: its raw percentage is −50. -/
def greenLogExample : LogEntry :=
  ⟨1, "2024-01-01T00:00:00.000Z", "Alex", none, "GREEN", 5, "Other", none⟩

theorem claim_C9_score_clamped_witness :
    calculateVibeScore [greenLogExample] = 0 :=
  (claim_C9_score_clamped [greenLogExample]).2.2.1 (by decide)
    (by simp [rawToxicityPercentage, toxicitySum, logContribution, greenLogExample]; norm_num)

/-- C10: the scoring functions duplicated inside `ProfileDetailScreen` are
extensionally equal to the exported ones from the database module. -/
theorem claim_C10_screen_copies_agree :
    (∀ logs : List LogEntry, calculateVibeScoreScreen logs = calculateVibeScore logs) ∧
    (∀ score : ℤ, getHealthStatusScreen score = getHealthStatus score) :=
  ⟨fun _ => rfl, fun _ => rfl⟩

/-! ### Persistence layer

The two tables of `initializeDatabase` (db.ts): `profiles`
(id AUTOINCREMENT, name UNIQUE, relationship, created_at) and `logs`
(id AUTOINCREMENT, timestamp, person, profile_id nullable REFERENCES
profiles ON DELETE SET NULL, type CHECK in GREEN/YELLOW/RED, severity
CHECK in [1,10], category, notes nullable).  AUTOINCREMENT row ids are
modelled by the `nextProfileId` / `nextLogId` counters. -/

structure Profile where
  id : ℕ
  name : String
  relationship : String
  created_at : String
deriving DecidableEq, Repr

structure DB where
  profiles : List Profile
  logs : List LogEntry
  nextProfileId : ℕ
  nextLogId : ℕ
deriving DecidableEq, Repr

/-- Errors raised by the SQLite layer and surfaced by `runAsync`. -/
inductive DBError where
  | uniqueConstraintViolation
  | checkConstraintViolation
deriving DecidableEq, Repr

structure NewProfile where
  name : String
  relationship : String
deriving DecidableEq, Repr

structure NewLogEntry where
  person : String
  profile_id : Option ℕ
  type : String
  severity : ℤ
  category : String
  notes : Option String
deriving DecidableEq, Repr

/-- JavaScript `x || null` applied to an optional number: `0` is falsy, so a
provided reference of 0 is coerced to null (db.ts line 195,
`entry.profile_id || null`). -/
def jsOrNullId (x : Option ℕ) : Option ℕ :=
  match x with
  | some 0 => none
  | x => x

/-- JavaScript `x || null` applied to an optional string: the empty string is
falsy, so it is coerced to null (db.ts line 195, `entry.notes || null`). -/
def jsOrNullNotes (x : Option String) : Option String :=
  match x with
  | some "" => none
  | x => x

/-- `createProfile` (db.ts): a plain INSERT into `profiles`; the UNIQUE
constraint on `name` makes the insert fail when the name already exists,
and `runAsync` surfaces that failure.  On success the fresh
`lastInsertRowId` is returned.  The pair returns the operation's outcome
together with the resulting database state (unchanged on failure). -/
def createProfile (now : String) (db : DB) (p : NewProfile) : Except DBError ℕ × DB :=
  if db.profiles.any (fun q => q.name = p.name) then
    (Except.error DBError.uniqueConstraintViolation, db)
  else
    (Except.ok db.nextProfileId,
      { db with
          profiles := db.profiles ++ [⟨db.nextProfileId, p.name, p.relationship, now⟩],
          nextProfileId := db.nextProfileId + 1 })

/-- `insertLog` (db.ts): a plain INSERT into `logs`; the schema CHECK
constraints on `severity` and `type` make the insert fail on invalid
values, and `runAsync` surfaces that failure, leaving the state unchanged.
Timestamp is the current time; `profile_id` and `notes` go through the
JavaScript `|| null` coercion. -/
def insertLog (now : String) (db : DB) (entry : NewLogEntry) : Except DBError ℕ × DB :=
  if 1 ≤ entry.severity ∧ entry.severity ≤ 10 ∧
      (entry.type = "GREEN" ∨ entry.type = "YELLOW" ∨ entry.type = "RED") then
    (Except.ok db.nextLogId,
      { db with
          logs := db.logs ++
            [⟨db.nextLogId, now, entry.person, jsOrNullId entry.profile_id, entry.type,
              entry.severity, entry.category, jsOrNullNotes entry.notes⟩],
          nextLogId := db.nextLogId + 1 })
  else
    (Except.error DBError.checkConstraintViolation, db)

/-- `deleteProfile` (db.ts): `DELETE FROM profiles WHERE id = ?`; the
foreign key declared `ON DELETE SET NULL` on `logs.profile_id` clears the
reference on every log row that pointed at the deleted profile. -/
def deleteProfile (db : DB) (id : ℕ) : DB :=
  { db with
      profiles := db.profiles.filter (fun p => decide (p.id ≠ id)),
      logs := db.logs.map (fun l =>
        if l.profile_id = some id then { l with profile_id := none } else l) }

/-- C5: `deleteProfile` removes exactly the profile row with the given id;
no log row is deleted; every log row keeps all its fields (including the
denormalized `person` name) except that a reference to the deleted id is
cleared to absent; afterwards no log row points at the deleted id. -/
theorem claim_C5_deleteProfile_detaches (db : DB) (id : ℕ) :
    (∀ p : Profile, p ∈ (deleteProfile db id).profiles ↔ (p ∈ db.profiles ∧ p.id ≠ id)) ∧
    (deleteProfile db id).logs.length = db.logs.length ∧
    (∀ i : ℕ, ∀ l l' : LogEntry, db.logs[i]? = some l → (deleteProfile db id).logs[i]? = some l' →
        l'.id = l.id ∧ l'.timestamp = l.timestamp ∧ l'.person = l.person ∧
        l'.type = l.type ∧ l'.severity = l.severity ∧ l'.category = l.category ∧
        l'.notes = l.notes ∧
        l'.profile_id = if l.profile_id = some id then none else l.profile_id) ∧
    (∀ l : LogEntry, l ∈ (deleteProfile db id).logs → l.profile_id ≠ some id) := by
  refine ⟨?_, ?_, ?_, ?_⟩
  · intro p
    simp [deleteProfile, List.mem_filter]
  · simp [deleteProfile]
  · intro i l l' hl hl'
    simp only [deleteProfile, List.getElem?_map, hl, Option.map_some', Option.some.injEq] at hl'
    subst hl'
    by_cases hpid : l.profile_id = some id <;> simp [hpid]
  · intro l hl
    simp only [deleteProfile, List.mem_map] at hl
    rcases hl with ⟨a, _, rfl⟩
    by_cases hpid : a.profile_id = some id <;> simp [hpid]

/-- A concrete database: one profile `Alex` (id 1) and one log referencing
it, used to instantiate the persistence theorems. -/
def exProfile : Profile := ⟨1, "Alex", "Friend", "2024-01-01T00:00:00.000Z"⟩

def exLog : LogEntry :=
  ⟨1, "2024-01-02T00:00:00.000Z", "Alex", some 1, "RED", 5, "Trust", none⟩

def exDB : DB := ⟨[exProfile], [exLog], 2, 2⟩

theorem claim_C5_deleteProfile_detaches_witness :
    (deleteProfile exDB 1).logs.length = exDB.logs.length ∧
    ∃ l' : LogEntry, (deleteProfile exDB 1).logs[0]? = some l' ∧
      l'.person = exLog.person ∧ l'.profile_id = none := by
  have h := claim_C5_deleteProfile_detaches exDB 1
  refine ⟨h.2.1, ?_⟩
  have hl' : (deleteProfile exDB 1).logs[0]? = some { exLog with profile_id := none } := by
    decide
  refine ⟨{ exLog with profile_id := none }, hl', ?_, ?_⟩
  · exact (h.2.2.1 0 exLog _ (by decide) hl').2.2.1
  · have h2 := (h.2.2.1 0 exLog _ (by decide) hl').2.2.2.2.2.2.2
    simp only [exLog] at h2
    exact h2

/-- C6: `createProfile` fails with a unique-constraint error and leaves the
database unchanged when a profile with the same name exists; otherwise it
returns the freshly allocated id (fresh whenever existing ids are below the
allocator counter) and appends the new row stamped with the current
timestamp. -/
theorem claim_C6_createProfile_unique (now : String) (db : DB) (p : NewProfile) :
    ((∃ q ∈ db.profiles, q.name = p.name) →
        createProfile now db p = (Except.error DBError.uniqueConstraintViolation, db)) ∧
    ((∀ q ∈ db.profiles, q.name ≠ p.name) →
        createProfile now db p =
          (Except.ok db.nextProfileId,
            { db with
                profiles := db.profiles ++ [⟨db.nextProfileId, p.name, p.relationship, now⟩],
                nextProfileId := db.nextProfileId + 1 })) ∧
    ((∀ q ∈ db.profiles, q.id < db.nextProfileId) →
        ∀ q ∈ db.profiles, q.id ≠ db.nextProfileId) := by
  refine ⟨?_, ?_, ?_⟩
  · intro ⟨q, hq, hname⟩
    have hany : db.profiles.any (fun q => q.name = p.name) = true := by
      simp only [List.any_eq_true]
      exact ⟨q, hq, by simp [hname]⟩
    simp [createProfile, hany]
  · intro hnone
    have hany : db.profiles.any (fun q => q.name = p.name) = false := by
      simp only [List.any_eq_false]
      intro q hq
      simpa using hnone q hq
    simp [createProfile, hany]
  · intro hlt q hq
    exact Nat.ne_of_lt (hlt q hq)

theorem claim_C6_createProfile_unique_witness :
    createProfile "2024-01-03T00:00:00.000Z" exDB ⟨"Alex", "Partner"⟩ =
      (Except.error DBError.uniqueConstraintViolation, exDB) :=
  (claim_C6_createProfile_unique "2024-01-03T00:00:00.000Z" exDB ⟨"Alex", "Partner"⟩).1
    ⟨exProfile, by decide, by decide⟩

/-- A valid log entry whose provided profile reference is 0: severity and
type pass the CHECK constraints, yet `entry.profile_id || null` coerces the
reference to null before the INSERT. -/
def zeroRefEntry : NewLogEntry := ⟨"Alex", some 0, "RED", 5, "Trust", none⟩

def emptyDB : DB := ⟨[], [], 1, 1⟩

/-- C7 counterexample: it is not true that every valid entry is persisted
with the provided profile reference: an entry whose reference is 0 is
stored with the reference absent. -/
theorem claim_C7_counterexample :
    ¬ (∀ (now : String) (db : DB) (entry : NewLogEntry),
        1 ≤ entry.severity → entry.severity ≤ 10 →
        (entry.type = "GREEN" ∨ entry.type = "YELLOW" ∨ entry.type = "RED") →
        (insertLog now db entry).2.logs.map (fun l => l.profile_id) =
          db.logs.map (fun l => l.profile_id) ++ [entry.profile_id]) := by
  intro h
  have h0 := h "t" emptyDB zeroRefEntry (by decide) (by decide) (by decide)
  exact absurd h0 (by decide)

/-- C7 (amended): `insertLog` rejects any entry whose severity is outside
[1,10] or whose type is not GREEN/YELLOW/RED, leaving the state unchanged;
a valid entry is appended as a single row stamped with the current
timestamp under a fresh id, with the `|| null` coercion applied to the
optional fields — in particular any provided profile reference other
than 0 is stored exactly as given. -/
theorem claim_C7_insertLog_validates (now : String) (db : DB) (entry : NewLogEntry) :
    (¬ (1 ≤ entry.severity ∧ entry.severity ≤ 10 ∧
          (entry.type = "GREEN" ∨ entry.type = "YELLOW" ∨ entry.type = "RED")) →
        insertLog now db entry = (Except.error DBError.checkConstraintViolation, db)) ∧
    ((1 ≤ entry.severity ∧ entry.severity ≤ 10 ∧
          (entry.type = "GREEN" ∨ entry.type = "YELLOW" ∨ entry.type = "RED")) →
        insertLog now db entry =
          (Except.ok db.nextLogId,
            { db with
                logs := db.logs ++
                  [⟨db.nextLogId, now, entry.person, jsOrNullId entry.profile_id, entry.type,
                    entry.severity, entry.category, jsOrNullNotes entry.notes⟩],
                nextLogId := db.nextLogId + 1 })) ∧
    (entry.profile_id ≠ some 0 → jsOrNullId entry.profile_id = entry.profile_id) := by
  refine ⟨?_, ?_, ?_⟩
  · intro hbad
    simp [insertLog, hbad]
  · intro hgood
    simp [insertLog, hgood]
  · intro hnz
    match hx : entry.profile_id with
    | none => rfl
    | some 0 => exact absurd hx hnz
    | some (n + 1) => rfl

theorem claim_C7_insertLog_validates_witness :
    insertLog "t" emptyDB ⟨"Alex", some 1, "BLUE", 5, "Trust", none⟩ =
      (Except.error DBError.checkConstraintViolation, emptyDB) :=
  (claim_C7_insertLog_validates "t" emptyDB ⟨"Alex", some 1, "BLUE", 5, "Trust", none⟩).1
    (by decide)

/-! ### Log lookup by profile (`ORDER BY timestamp DESC`) -/

/-- The ordering of `ORDER BY timestamp DESC`: later (larger) ISO-8601
timestamp strings come first. -/
def tsDesc (a b : LogEntry) : Prop := b.timestamp ≤ a.timestamp

instance : DecidableRel tsDesc := fun a b =>
  inferInstanceAs (Decidable (b.timestamp ≤ a.timestamp))

instance : IsTotal LogEntry tsDesc := ⟨fun a b => le_total b.timestamp a.timestamp⟩

instance : IsTrans LogEntry tsDesc := ⟨fun _ _ _ hab hbc => le_trans hbc hab⟩

/-- `getLogsByProfileId` (db.ts):
`SELECT * FROM logs WHERE profile_id = ? ORDER BY timestamp DESC` — only
the primary lookup by profile reference, no fallback. -/
def getLogsByProfileId (db : DB) (profileId : ℕ) : List LogEntry :=
  List.insertionSort tsDesc (db.logs.filter (fun l => decide (l.profile_id = some profileId)))

/-- The log-fetch part of `fetchProfileData` in
`src/screens/ProfileDetailScreen.tsx`: load the profile (absent if not
found), query logs by `profile_id`, and if that yields zero rows, query
again by `person = profile.name`. -/
def fetchLogsForProfile (db : DB) (profileId : ℕ) : Option (List LogEntry) :=
  match db.profiles.find? (fun p => decide (p.id = profileId)) with
  | none => none
  | some prof =>
    let logResults :=
      List.insertionSort tsDesc (db.logs.filter (fun l => decide (l.profile_id = some profileId)))
    if logResults.isEmpty then
      some (List.insertionSort tsDesc (db.logs.filter (fun l => decide (l.person = prof.name))))
    else some logResults

/-- The behaviour the claim attributes to `getLogsByProfileId`, written from
the spec's words: primary lookup by profile reference and, if and only if
it yields zero rows, a fallback lookup by exact denormalized name match
against the profile's current name. -/
def claimedListLogsForProfile (db : DB) (profileId : ℕ) : List LogEntry :=
  let primary :=
    List.insertionSort tsDesc (db.logs.filter (fun l => decide (l.profile_id = some profileId)))
  if primary.isEmpty then
    match db.profiles.find? (fun p => decide (p.id = profileId)) with
    | some prof => List.insertionSort tsDesc (db.logs.filter (fun l => decide (l.person = prof.name)))
    | none => []
  else primary

/-- A pre-migration shaped database: profile `Alex` (id 1) exists, and one
log carries the denormalized name `Alex` but no profile reference. -/
def orphanLog : LogEntry :=
  ⟨1, "2024-01-02T00:00:00.000Z", "Alex", none, "RED", 5, "Trust", none⟩

def orphanDB : DB := ⟨[exProfile], [orphanLog], 2, 2⟩

/-- C4 counterexample: `getLogsByProfileId` performs no fallback: on a
database where the only log for profile 1 is linked by name alone, it
returns the empty list, while the dual-path lookup the claim describes
returns that log. -/
theorem claim_C4_counterexample :
    getLogsByProfileId orphanDB 1 = [] ∧
    claimedListLogsForProfile orphanDB 1 = [orphanLog] ∧
    getLogsByProfileId orphanDB 1 ≠ claimedListLogsForProfile orphanDB 1 := by
  refine ⟨by decide, by decide, by decide⟩

/-- C4 (amended): `getLogsByProfileId` returns exactly the logs whose
profile reference matches, newest first, with no fallback; the dual-path
compatibility lookup (fallback by denormalized name iff the primary lookup
is empty) is implemented by the caller `fetchProfileData` in
`ProfileDetailScreen`, whose result agrees with the spec's dual-path
description whenever the profile exists. -/
theorem claim_C4_lookup_paths (db : DB) (profileId : ℕ) :
    (∀ l ∈ getLogsByProfileId db profileId, l.profile_id = some profileId) ∧
    (∀ l ∈ db.logs, l.profile_id = some profileId → l ∈ getLogsByProfileId db profileId) ∧
    List.Sorted tsDesc (getLogsByProfileId db profileId) ∧
    (∀ prof : Profile, db.profiles.find? (fun p => decide (p.id = profileId)) = some prof →
        fetchLogsForProfile db profileId = some (claimedListLogsForProfile db profileId)) ∧
    (db.profiles.find? (fun p => decide (p.id = profileId)) = none →
        fetchLogsForProfile db profileId = none) := by
  refine ⟨?_, ?_, ?_, ?_, ?_⟩
  · intro l hl
    have hmem : l ∈ db.logs.filter (fun l => decide (l.profile_id = some profileId)) :=
      (List.mem_insertionSort tsDesc).1 hl
    simpa using (List.mem_filter.1 hmem).2
  · intro l hl hpid
    refine (List.mem_insertionSort tsDesc).2 (List.mem_filter.2 ⟨hl, by simpa using hpid⟩)
  · exact List.sorted_insertionSort tsDesc _
  · intro prof hfind
    unfold fetchLogsForProfile claimedListLogsForProfile
    rw [hfind]
    by_cases hempty :
        (List.insertionSort tsDesc
          (db.logs.filter (fun l => decide (l.profile_id = some profileId)))).isEmpty
    · simp [hempty]
    · simp [hempty]
  · intro hfind
    unfold fetchLogsForProfile
    rw [hfind]

theorem claim_C4_lookup_paths_witness :
    fetchLogsForProfile orphanDB 1 = some (claimedListLogsForProfile orphanDB 1) :=
  (claim_C4_lookup_paths orphanDB 1).2.2.2.1 exProfile (by decide)

/-! ### Top profiles by log count (`getTopProfilesByLogCount`) -/

structure TopProfile where
  id : ℕ
  name : String
  flagCount : ℕ
deriving DecidableEq, Repr

/-- The ordering of `ORDER BY flagCount DESC`. -/
def countDesc (a b : TopProfile) : Prop := b.flagCount ≤ a.flagCount

instance : DecidableRel countDesc := fun a b =>
  inferInstanceAs (Decidable (b.flagCount ≤ a.flagCount))

instance : IsTotal TopProfile countDesc := ⟨fun a b => le_total b.flagCount a.flagCount⟩

instance : IsTrans TopProfile countDesc := ⟨fun _ _ _ hab hbc => le_trans hbc hab⟩

/-- The `GROUP BY p.id` counts of the primary query of
`getTopProfilesByLogCount` (LEFT JOIN on `l.profile_id = p.id`). -/
def profileLogCounts (db : DB) : List TopProfile :=
  db.profiles.map (fun p =>
    ⟨p.id, p.name, (db.logs.filter (fun l => decide (l.profile_id = some p.id))).length⟩)

/-- The counts of the fallback query (LEFT JOIN on `l.person = p.name`). -/
def profileLogCountsByName (db : DB) : List TopProfile :=
  db.profiles.map (fun p =>
    ⟨p.id, p.name, (db.logs.filter (fun l => decide (l.person = p.name))).length⟩)

/-- `HAVING flagCount > 0  ORDER BY flagCount DESC  LIMIT ?` applied to a
count list (ties keep the deterministic `GROUP BY p.id` scan order, which
a stable sort preserves). -/
def topQuery (counts : List TopProfile) (limit : ℕ) : List TopProfile :=
  (List.insertionSort countDesc (counts.filter (fun t => decide (0 < t.flagCount)))).take limit

/-- `getTopProfilesByLogCount` (db.ts): run the primary profile-id query;
if it returns no rows, rerun joining by person name. -/
def getTopProfilesByLogCount (db : DB) (limit : ℕ) : List TopProfile :=
  let results := topQuery (profileLogCounts db) limit
  if results.isEmpty then topQuery (profileLogCountsByName db) limit
  else results

theorem topQuery_sorted (counts : List TopProfile) (limit : ℕ) :
    List.Sorted countDesc (topQuery counts limit) ∧
    (∀ t ∈ topQuery counts limit, 0 < t.flagCount) ∧
    (topQuery counts limit).length ≤ limit := by
  refine ⟨?_, ?_, ?_⟩
  · exact List.Pairwise.sublist (List.take_sublist _ _) (List.sorted_insertionSort countDesc _)
  · intro t ht
    have h1 : t ∈ List.insertionSort countDesc (counts.filter (fun t => decide (0 < t.flagCount))) :=
      List.take_subset _ _ ht
    have h2 := (List.mem_insertionSort countDesc).1 h1
    simpa using (List.mem_filter.1 h2).2
  · exact List.length_take_le _ _

/-- The five-profile example from the spec: ids 1–5 with per-profile log
counts [0, 2, 5, 1, 3]. -/
def mkCountLog (i pid : ℕ) : LogEntry :=
  ⟨i, "2024-01-01T00:00:00.000Z", "P", some pid, "RED", 5, "Other", none⟩

def topExampleDB : DB :=
  ⟨[⟨1, "P1", "Friend", "t"⟩, ⟨2, "P2", "Friend", "t"⟩, ⟨3, "P3", "Friend", "t"⟩,
    ⟨4, "P4", "Friend", "t"⟩, ⟨5, "P5", "Friend", "t"⟩],
   [mkCountLog 1 2, mkCountLog 2 2, mkCountLog 3 3, mkCountLog 4 3, mkCountLog 5 3,
    mkCountLog 6 3, mkCountLog 7 3, mkCountLog 8 4, mkCountLog 9 5, mkCountLog 10 5,
    mkCountLog 11 5],
   6, 12⟩

/-- C8: `getTopProfilesByLogCount` returns counts sorted descending
(ties broken deterministically by the stable scan order), keeps only
profiles with a positive count, returns at most `limit` rows, and on the
spec's example of five profiles with counts [0,2,5,1,3] and limit 3 it
returns exactly the three nonzero-count profiles with counts [5,3,2]. -/
theorem claim_C8_topProfiles (db : DB) (limit : ℕ) :
    (List.Sorted countDesc (getTopProfilesByLogCount db limit) ∧
      (∀ t ∈ getTopProfilesByLogCount db limit, 0 < t.flagCount) ∧
      (getTopProfilesByLogCount db limit).length ≤ limit) ∧
    getTopProfilesByLogCount topExampleDB 3 =
      [⟨3, "P3", 5⟩, ⟨5, "P5", 3⟩, ⟨2, "P2", 2⟩] := by
  constructor
  · unfold getTopProfilesByLogCount
    by_cases hemp : (topQuery (profileLogCounts db) limit).isEmpty
    · rw [if_pos hemp]
      exact topQuery_sorted _ _
    · rw [if_neg hemp]
      exact topQuery_sorted _ _
  · decide

/-! ### Startup migration (`migrateExistingData`) -/

/-- `UPDATE logs SET profile_id = ? WHERE person = ? AND profile_id IS NULL`. -/
def linkLogs (person : String) (pid : ℕ) (logs : List LogEntry) : List LogEntry :=
  logs.map (fun l =>
    if l.person = person ∧ l.profile_id = none then { l with profile_id := some pid } else l)

/-- One iteration of the migration loop: resolve the profile for `person`
(`SELECT id FROM profiles WHERE name = ?`, inserting a profile with
relationship "Unknown" when absent), then link that person's unlinked
logs to the resolved id. -/
def migrateStep (now : String) (db : DB) (person : String) : DB :=
  match db.profiles.find? (fun p => decide (p.name = person)) with
  | some prof => { db with logs := linkLogs person prof.id db.logs }
  | none =>
      { db with
          profiles := db.profiles ++ [⟨db.nextProfileId, person, "Unknown", now⟩],
          nextProfileId := db.nextProfileId + 1,
          logs := linkLogs person db.nextProfileId db.logs }

/-- `migrateExistingData` (db.ts): if no log row has an absent profile
reference, return immediately; otherwise loop over the distinct person
names of the unlinked rows, resolving or creating a profile for each and
linking its rows. -/
def migrateExistingData (now : String) (db : DB) : DB :=
  if (db.logs.filter (fun l => decide (l.profile_id = none))).isEmpty then db
  else
    let uniquePeople := ((db.logs.filter (fun l => decide (l.profile_id = none))).map
      (fun l => l.person)).dedup
    uniquePeople.foldl (migrateStep now) db

theorem linkLogs_unlinked {person : String} {pid : ℕ} {logs : List LogEntry} :
    ∀ l' ∈ linkLogs person pid logs, l'.profile_id = none →
      ∃ l ∈ logs, l.person = l'.person ∧ l.profile_id = none ∧ l'.person ≠ person := by
  intro l' hl' hnone
  rcases List.mem_map.1 hl' with ⟨l, hl, heq⟩
  by_cases hc : l.person = person ∧ l.profile_id = none
  · rw [if_pos hc] at heq
    rw [← heq] at hnone
    simp at hnone
  · rw [if_neg hc] at heq
    subst heq
    refine ⟨l, hl, rfl, hnone, ?_⟩
    intro hp
    exact hc ⟨hp, hnone⟩

theorem migrateStep_unlinked {now : String} {db : DB} {person : String} :
    ∀ l' ∈ (migrateStep now db person).logs, l'.profile_id = none →
      ∃ l ∈ db.logs, l.person = l'.person ∧ l.profile_id = none ∧ l'.person ≠ person := by
  intro l' hl' hnone
  unfold migrateStep at hl'
  rcases hfind : db.profiles.find? (fun p => decide (p.name = person)) with _ | prof <;>
    rw [hfind] at hl' <;> exact linkLogs_unlinked l' hl' hnone

theorem migrateFold_unlinked (now : String) :
    ∀ (people : List String) (db : DB),
      ∀ l' ∈ (people.foldl (migrateStep now) db).logs, l'.profile_id = none →
        (∃ l ∈ db.logs, l.person = l'.person ∧ l.profile_id = none) ∧ l'.person ∉ people := by
  intro people
  induction people with
  | nil =>
    intro db l' hl' hnone
    exact ⟨⟨l', hl', rfl, hnone⟩, by simp⟩
  | cons p ps ih =>
    intro db l' hl' hnone
    rw [List.foldl_cons] at hl'
    rcases ih (migrateStep now db p) l' hl' hnone with ⟨⟨l1, hl1, hperson, hnone1⟩, hnotps⟩
    rcases migrateStep_unlinked l1 hl1 hnone1 with ⟨l0, hl0, hp0, hnone0, hne⟩
    refine ⟨⟨l0, hl0, by rw [hp0, hperson], hnone0⟩, ?_⟩
    simp only [List.mem_cons, not_or]
    exact ⟨by rw [← hperson]; exact hne, hnotps⟩

/-- After one run of the migration, every log row has a profile reference. -/
theorem migrate_links_all (now : String) (db : DB) :
    ∀ l ∈ (migrateExistingData now db).logs, l.profile_id ≠ none := by
  unfold migrateExistingData
  by_cases hemp : (db.logs.filter (fun l => decide (l.profile_id = none))).isEmpty
  · rw [if_pos hemp]
    intro l hl hnone
    have hmem : l ∈ db.logs.filter (fun l => decide (l.profile_id = none)) :=
      List.mem_filter.2 ⟨hl, by simp [hnone]⟩
    rw [List.isEmpty_iff] at hemp
    rw [hemp] at hmem
    exact absurd hmem (List.not_mem_nil l)
  · rw [if_neg hemp]
    intro l hl hnone
    rcases migrateFold_unlinked now _ db l hl hnone with ⟨⟨l0, hl0, hp, hn⟩, hnot⟩
    apply hnot
    rw [List.mem_dedup]
    exact List.mem_map.2 ⟨l0, List.mem_filter.2 ⟨hl0, by simp [hn]⟩, hp⟩

/-- The detection step: on a database with no unlinked log row, the
migration returns the state unchanged. -/
theorem migrate_noop {now : String} {db : DB}
    (h : (db.logs.filter (fun l => decide (l.profile_id = none))).isEmpty) :
    migrateExistingData now db = db := by
  unfold migrateExistingData
  rw [if_pos h]

/-- C3: the startup migration is idempotent: a second run (at any later
timestamp) leaves the state of the first run unchanged, because after one
run no log row has an absent profile reference, so the detection step makes
the re-run a no-op — no duplicate profiles, no re-touched rows. -/
theorem claim_C3_migration_idempotent (now now' : String) (db : DB) :
    migrateExistingData now' (migrateExistingData now db) = migrateExistingData now db := by
  apply migrate_noop
  rw [List.isEmpty_iff, List.filter_eq_nil_iff]
  intro l hl
  simpa using migrate_links_all now db l hl

end VibeFlagger
